import Mathlib

/-!
Verification of the `django_vue_starter` blog API (backend/api).

The embedding models the two persisted record types (`Category`, `Post`) and
the external `User` identity, a database state as lists of records, the
serializer layer (`serializers.py`), the view-set handlers (`views.py`) and
the declared permission policies, all as pure Lean functions translated
directly from the source.  Django/DRF framework behaviour that the source
merely declares (cascade delete via `on_delete=models.CASCADE`, read-only
field exclusion in `ModelSerializer`, `Meta.ordering`, the named permission
classes) is embedded with its standard documented semantics, noted at each
definition.
-/

namespace DjangoVueStarter

/-- `django.contrib.auth.models.User`: the external identity entity, with the
fields exposed by `UserSerializer` (`serializers.py` lines 6-12). -/
structure User where
  id : Nat
  username : String
  email : String
  first_name : String
  last_name : String
deriving DecidableEq, Repr

/-- `Category` model (`models.py` lines 5-17).  Timestamps are abstracted as
naturals (`auto_now_add` / `auto_now` counters). -/
structure Category where
  id : Nat
  name : String
  description : String
  created_at : Nat
  updated_at : Nat
deriving DecidableEq, Repr

/-- `Post` model (`models.py` lines 20-42).  The `category` and `author`
foreign keys are stored as the referenced ids. -/
structure Post where
  id : Nat
  title : String
  content : String
  categoryId : Nat
  authorId : Nat
  published : Bool
  created_at : Nat
  updated_at : Nat
deriving DecidableEq, Repr

/-- The relational store: one row list per table. -/
structure DB where
  categories : List Category
  posts : List Post
  users : List User
deriving Repr

/-- HTTP request methods relevant to the API surface. -/
inductive Method where
  | GET | HEAD | OPTIONS | POST | PUT | PATCH | DELETE
deriving DecidableEq, Repr

/-- DRF `SAFE_METHODS`: the non-mutating verbs. -/
def SAFE_METHODS : List Method := [Method.GET, Method.HEAD, Method.OPTIONS]

/-- `rest_framework.permissions.IsAuthenticatedOrReadOnly`, the policy named
by `CategoryViewSet.permission_classes` and `PostViewSet.permission_classes`
(`views.py` lines 15 and 32): anonymous safe-method access is allowed, every
mutating verb requires an authenticated identity. -/
def IsAuthenticatedOrReadOnly (method : Method) (isAuthenticated : Bool) : Bool :=
  SAFE_METHODS.contains method || isAuthenticated

/-- `rest_framework.permissions.IsAuthenticated`, the policy named by
`UserViewSet.permission_classes` (`views.py` line 70): every verb requires an
authenticated identity. -/
def IsAuthenticated (method : Method) (isAuthenticated : Bool) : Bool :=
  isAuthenticated

/-- Permission check of `CategoryViewSet` (`views.py` line 15). -/
def CategoryViewSet.has_permission (m : Method) (auth : Bool) : Bool :=
  IsAuthenticatedOrReadOnly m auth

/-- Permission check of `PostViewSet` (`views.py` line 32). -/
def PostViewSet.has_permission (m : Method) (auth : Bool) : Bool :=
  IsAuthenticatedOrReadOnly m auth

/-- Permission check of `UserViewSet` (`views.py` line 70). -/
def UserViewSet.has_permission (m : Method) (auth : Bool) : Bool :=
  IsAuthenticated m auth

/-- A raw Post write request body.  Every JSON key the client may send for a
`Post` write, each optional.  `author` and `id` may be supplied by the client
but are declared read-only by `PostSerializer` (`serializers.py` line 43). -/
structure PostBody where
  title : Option String
  content : Option String
  category_id : Option Nat
  published : Option Bool
  author : Option Nat
  id : Option Nat
deriving DecidableEq, Repr

/-- The validated data produced by `PostSerializer` field validation: exactly
the writable fields (`title`, `content`, `category_id`, `published`) survive;
`published` defaults to `false` (`models.py` line 33). -/
structure ValidatedPostData where
  title : String
  content : String
  category_id : Nat
  published : Bool
deriving DecidableEq, Repr

/-- `PostSerializer` input validation (`serializers.py` lines 31-43): the
writable fields are `title`, `content`, `category_id` (required, declared
`write_only`) and `published`; `author` and `id` are read-only and are never
read from the body. -/
def PostSerializer.validate (b : PostBody) : Option ValidatedPostData :=
  match b.title, b.content, b.category_id with
  | some t, some c, some cid =>
      some { title := t, content := c, category_id := cid,
             published := b.published.getD false }
  | _, _, _ => none

/-- `PostSerializer.create` (`serializers.py` lines 45-47):
`validated_data['author'] = self.context['request'].user`, then the model
instance is created from the validated data.  `requestUser` is the id of the
authenticated requesting user; `newId` and `now` stand for the
system-assigned primary key and `auto_now_add` timestamp. -/
def PostSerializer.create (requestUser : Nat) (vd : ValidatedPostData)
    (newId now : Nat) : Post :=
  { id := newId, title := vd.title, content := vd.content,
    categoryId := vd.category_id, authorId := requestUser,
    published := vd.published, created_at := now, updated_at := now }

/-- `ModelSerializer.update` for `PostSerializer`: each writable field present
in the validated body is written onto the instance; read-only fields (`id`,
`author`, `created_at`) are never in the validated data and are untouched;
`updated_at` is refreshed by `auto_now` (`models.py` line 35). -/
def PostSerializer.update (p : Post) (b : PostBody) (now : Nat) : Post :=
  { p with
    title := b.title.getD p.title,
    content := b.content.getD p.content,
    categoryId := b.category_id.getD p.categoryId,
    published := b.published.getD p.published,
    updated_at := now }

/-- `CategorySerializer.get_posts_count` (`serializers.py` lines 27-28):
`obj.posts.count()`, the live number of `Post` rows whose `category` foreign
key references `c`, evaluated against the current database state. -/
def CategorySerializer.get_posts_count (db : DB) (c : Category) : Nat :=
  (db.posts.filter (fun p => p.categoryId == c.id)).length

/-- The serialized JSON object for a `Category` (`serializers.py` lines
15-25): model fields plus the computed `posts_count`. -/
structure CategoryJSON where
  id : Nat
  name : String
  description : String
  posts_count : Nat
  created_at : Nat
  updated_at : Nat
deriving DecidableEq, Repr

/-- `CategorySerializer` output (`serializers.py` lines 15-28). -/
def CategorySerializer.serialize (db : DB) (c : Category) : CategoryJSON :=
  { id := c.id, name := c.name, description := c.description,
    posts_count := CategorySerializer.get_posts_count db c,
    created_at := c.created_at, updated_at := c.updated_at }

/-- `PostViewSet.get_queryset` (`views.py` lines 34-48): starts from all
posts; if the `category` query parameter is present, keeps posts whose
category id equals it; if the `published` parameter is present, keeps posts
whose `published` flag equals `published.lower() == 'true'`. -/
def PostViewSet.get_queryset (db : DB) (category : Option Nat)
    (published : Option String) : List Post :=
  let queryset := db.posts
  let queryset := match category with
    | none => queryset
    | some cid => queryset.filter (fun p => p.categoryId == cid)
  let queryset := match published with
    | none => queryset
    | some s => queryset.filter (fun p => p.published == (s.toLower == "true"))
  queryset

/-- A handler response: a JSON body on success, or a status code with a
`detail` message on failure. -/
inductive ActionResponse (α : Type) where
  | ok (body : α)
  | failure (statusCode : Nat) (detail : String)
deriving DecidableEq, Repr

/-- `PostViewSet.my_posts` (`views.py` lines 50-61): anonymous requesters get
status 401 with detail `Authentication required`; otherwise the handler runs
`Post.objects.filter(author=request.user)`.  The handler receives but never
reads the `category` / `published` query parameters (it does not call
`get_queryset`). -/
def PostViewSet.my_posts (db : DB) (requestUser : Option Nat)
    (categoryParam : Option Nat) (publishedParam : Option String) :
    ActionResponse (List Post) :=
  match requestUser with
  | none => ActionResponse.failure 401 "Authentication required"
  | some u => ActionResponse.ok (db.posts.filter (fun p => p.authorId == u))

/-- Deleting a `Category` (`ModelViewSet.destroy` on `CategoryViewSet`):
the row is removed, and `on_delete=models.CASCADE` on `Post.category`
(`models.py` lines 24-28) removes every `Post` referencing it. -/
def CategoryViewSet.destroy (db : DB) (cid : Nat) : DB :=
  { db with
    categories := db.categories.filter (fun c => c.id != cid),
    posts := db.posts.filter (fun p => p.categoryId != cid) }

/-- `CategoryViewSet` list output: `Category.Meta.ordering = ['name']`
(`models.py` lines 12-14) orders rows alphabetically by `name`. -/
def CategoryViewSet.list (db : DB) : List Category :=
  db.categories.mergeSort (fun a b => decide (a.name ≤ b.name))

/-- `PostViewSet` list output: the filtered queryset ordered by
`Post.Meta.ordering = ['-created_at']` (`models.py` lines 38-39), newest
first. -/
def PostViewSet.list (db : DB) (category : Option Nat)
    (published : Option String) : List Post :=
  (PostViewSet.get_queryset db category published).mergeSort
    (fun a b => decide (b.created_at ≤ a.created_at))

/-- C1: Creating a Post while authenticated as user `u` always yields
`author == u`: the created row's author is the requesting identity for every
validated payload, and any client-supplied `author` value in the request body
is never used (changing it does not change the validation result). -/
theorem C1_create_forces_author :
    ∀ (u : Nat) (vd : ValidatedPostData) (newId now : Nat)
      (b : PostBody) (a : Option Nat),
      (PostSerializer.create u vd newId now).authorId = u
      ∧ PostSerializer.validate { b with author := a }
          = PostSerializer.validate b := by
  intro u vd newId now b a
  refine ⟨rfl, ?_⟩
  cases b
  rfl

/-- C2: Deleting a Category cascades: after `CategoryViewSet.destroy db cid`,
a post survives iff it was present and did not reference category `cid` (so
no Post referencing `cid` remains), and a category survives iff it was
present and is not `cid`. -/
theorem C2_category_delete_cascades :
    ∀ (db : DB) (cid : Nat) (p : Post) (c : Category),
      (p ∈ (CategoryViewSet.destroy db cid).posts
          ↔ p ∈ db.posts ∧ p.categoryId ≠ cid)
      ∧ (c ∈ (CategoryViewSet.destroy db cid).categories
          ↔ c ∈ db.categories ∧ c.id ≠ cid) := by
  intro db cid p c
  constructor <;> simp [CategoryViewSet.destroy, List.mem_filter]

/-- C3: Anonymous `GET /posts/my_posts/` yields status 401 with body detail
`Authentication required` and no post list; for an authenticated user `u` the
body is exactly the posts whose author is `u`. -/
theorem C3_my_posts_auth_gate :
    ∀ (db : DB) (catP : Option Nat) (pubP : Option String) (u : Nat) (p : Post),
      PostViewSet.my_posts db none catP pubP
          = ActionResponse.failure 401 "Authentication required"
      ∧ PostViewSet.my_posts db (some u) catP pubP
          = ActionResponse.ok (db.posts.filter (fun q => q.authorId == u))
      ∧ (p ∈ db.posts.filter (fun q => q.authorId == u)
          ↔ p ∈ db.posts ∧ p.authorId = u) := by
  intro db catP pubP u p
  refine ⟨rfl, rfl, ?_⟩
  simp [List.mem_filter]

/-- C4: With a `published` query parameter `s`, the list result contains
exactly the posts whose `published` flag equals `s.toLower == "true"`: all
published posts when `s` matches `"true"` case-insensitively, and all
unpublished posts for every other value (malformed values included, never an
error). -/
theorem C4_published_filter_coercion :
    ∀ (db : DB) (s : String) (p : Post),
      p ∈ PostViewSet.get_queryset db none (some s)
        ↔ p ∈ db.posts ∧ p.published = (s.toLower == "true") := by
  intro db s p
  simp [PostViewSet.get_queryset, List.mem_filter]

/-- C5: The `category` parameter alone selects exactly the posts whose
category id equals it; together with `published` the result is the
conjunction of both conditions; with neither parameter all posts are
returned. -/
theorem C5_filter_composition :
    ∀ (db : DB) (cid : Nat) (s : String) (p : Post),
      (p ∈ PostViewSet.get_queryset db (some cid) none
          ↔ p ∈ db.posts ∧ p.categoryId = cid)
      ∧ (p ∈ PostViewSet.get_queryset db (some cid) (some s)
          ↔ p ∈ db.posts ∧ p.categoryId = cid
              ∧ p.published = (s.toLower == "true"))
      ∧ PostViewSet.get_queryset db none none = db.posts := by
  intro db cid s p
  refine ⟨?_, ?_, rfl⟩ <;>
    simp [PostViewSet.get_queryset, List.mem_filter, and_assoc] <;> tauto

/-- C6: The serialized `posts_count` equals the live number of posts
referencing the category in the current database state, and it tracks
insertion/removal of a post anywhere in the table: serializing against a
state with one extra matching post yields a count one larger. -/
theorem C6_posts_count_is_live :
    ∀ (db : DB) (c : Category) (cats : List Category) (us : List User)
      (l1 l2 : List Post) (p : Post),
      (CategorySerializer.serialize db c).posts_count
          = db.posts.countP (fun q => q.categoryId == c.id)
      ∧ (CategorySerializer.serialize ⟨cats, l1 ++ p :: l2, us⟩ c).posts_count
          = (CategorySerializer.serialize ⟨cats, l1 ++ l2, us⟩ c).posts_count
            + (if p.categoryId = c.id then 1 else 0) := by
  intro db c cats us l1 l2 p
  constructor
  · simp [CategorySerializer.serialize, CategorySerializer.get_posts_count,
      List.countP_eq_length_filter]
  · by_cases h : p.categoryId = c.id <;>
      simp [CategorySerializer.serialize, CategorySerializer.get_posts_count,
        List.filter_append, List.filter_cons, h] <;> omega

/-- C7: Anonymous GET is permitted on the Category and Post resources while
every mutating verb (POST/PUT/PATCH/DELETE) is denied there; on the User
resource every verb is denied for anonymous requesters and permitted for
authenticated ones. -/
theorem C7_access_control_policies :
    ∀ (m : Method),
      CategoryViewSet.has_permission Method.GET false = true
      ∧ PostViewSet.has_permission Method.GET false = true
      ∧ ((m = Method.POST ∨ m = Method.PUT ∨ m = Method.PATCH
            ∨ m = Method.DELETE) →
          CategoryViewSet.has_permission m false = false
          ∧ PostViewSet.has_permission m false = false)
      ∧ UserViewSet.has_permission m false = false
      ∧ UserViewSet.has_permission m true = true := by
  intro m
  refine ⟨rfl, rfl, ?_, rfl, rfl⟩
  rintro (rfl | rfl | rfl | rfl) <;> exact ⟨rfl, rfl⟩

/-- C7 witness: anonymous POST is denied on both Category and Post. -/
theorem C7_access_control_policies_witness :
    CategoryViewSet.has_permission Method.POST false = false
    ∧ PostViewSet.has_permission Method.POST false = false :=
  (C7_access_control_policies Method.POST).2.2.1 (Or.inl rfl)

/-- C8: The Category list is the table ordered alphabetically by `name`
(sorted and a permutation of the rows), and the Post list is the filtered
queryset ordered newest-`created_at`-first. -/
theorem C8_default_ordering :
    ∀ (db : DB) (category : Option Nat) (published : Option String),
      (CategoryViewSet.list db).Pairwise (fun a b => a.name ≤ b.name)
      ∧ (CategoryViewSet.list db).Perm db.categories
      ∧ (PostViewSet.list db category published).Pairwise
          (fun a b => b.created_at ≤ a.created_at)
      ∧ (PostViewSet.list db category published).Perm
          (PostViewSet.get_queryset db category published) := by
  intro db category published
  refine ⟨?_, List.mergeSort_perm _ _, ?_, List.mergeSort_perm _ _⟩
  · have h := @List.sorted_mergeSort Category
      (fun a b => decide (a.name ≤ b.name))
      (fun a b c hab hbc => by
        simp only [decide_eq_true_eq] at *
        exact le_trans hab hbc)
      (fun a b => by
        simp only [Bool.or_eq_true, decide_eq_true_eq]
        exact le_total a.name b.name)
      db.categories
    exact h.imp (fun hab => by simpa using hab)
  · have h := @List.sorted_mergeSort Post
      (fun a b => decide (b.created_at ≤ a.created_at))
      (fun a b c hab hbc => by
        simp only [decide_eq_true_eq] at *
        exact le_trans hbc hab)
      (fun a b => by
        simp only [Bool.or_eq_true, decide_eq_true_eq]
        exact le_total b.created_at a.created_at)
      (PostViewSet.get_queryset db category published)
    exact h.imp (fun hab => by simpa using hab)

/-- C9: Updating a Post never changes its author: for every request body the
updated row keeps the old author id, and any client-supplied `author` value
has no effect on the update at all. -/
theorem C9_update_preserves_author :
    ∀ (p : Post) (b : PostBody) (now : Nat) (a : Option Nat),
      (PostSerializer.update p b now).authorId = p.authorId
      ∧ PostSerializer.update p { b with author := a } now
          = PostSerializer.update p b now := by
  intro p b now a
  refine ⟨rfl, ?_⟩
  cases b
  rfl

/-- C10: For an authenticated requester, `my_posts` ignores the `category`
and `published` query parameters: the response is the same as with no
parameters and is always the full author-filtered post table; moreover there
is a state where the response contains a post the filtered queryset would
have excluded. -/
theorem C10_my_posts_ignores_filters :
    ∀ (db : DB) (u : Nat) (catP : Option Nat) (pubP : Option String),
      PostViewSet.my_posts db (some u) catP pubP
          = PostViewSet.my_posts db (some u) none none
      ∧ PostViewSet.my_posts db (some u) catP pubP
          = ActionResponse.ok (db.posts.filter (fun p => p.authorId == u))
      ∧ (∃ (db2 : DB) (u2 : Nat) (s : String) (l : List Post) (p : Post),
          PostViewSet.my_posts db2 (some u2) none (some s)
              = ActionResponse.ok l
          ∧ p ∈ l ∧ p ∉ PostViewSet.get_queryset db2 none (some s)) := by
  intro db u catP pubP
  refine ⟨rfl, rfl,
    ⟨⟨[], [⟨1, "a", "c", 1, 1, true, 0, 0⟩, ⟨2, "b", "c", 1, 1, false, 0, 0⟩],
      []⟩, 1, "x",
      [⟨1, "a", "c", 1, 1, true, 0, 0⟩, ⟨2, "b", "c", 1, 1, false, 0, 0⟩],
      ?_⟩⟩
  by_cases hb : ("x".toLower == "true") = true
  · exact ⟨⟨2, "b", "c", 1, 1, false, 0, 0⟩, rfl, by simp,
      by simp [PostViewSet.get_queryset, List.mem_filter, hb]⟩
  · rw [Bool.not_eq_true] at hb
    exact ⟨⟨1, "a", "c", 1, 1, true, 0, 0⟩, rfl, by simp,
      by simp [PostViewSet.get_queryset, List.mem_filter, hb]⟩

end DjangoVueStarter
